import Mathlib

/-!
Shallow embedding of the DMV appointment-monitor core (appointment checker,
notification services, monitoring scheduler) together with proofs about the
spec claims.  Machine-level details that are external to the program logic
(the real calendar/locale formatter, the RegExp engine, the network, SMTP and
Twilio transports, the DOM) are modelled as explicit parameters; everything
else is translated directly from the TypeScript source.

Conventions:
* JS `Date` calendar days are modelled as natural-number day indices; the JS
  `getDay` weekday is the index modulo 7 with 0 = Sunday and 6 = Saturday.
* Nullable / possibly-undefined JS fields are `Option`s; JS string truthiness
  (`null`/`undefined`/`""` falsy) is modelled explicitly at each use site.
* `async` methods that can throw are embedded as functions returning
  `Except String _`; when the method also mutates storage before a possible
  throw it returns `Storage × Except String _`.
* Record `id` / `createdAt` / `updatedAt` fields and the opaque JSON
  `metadata` strings are omitted: no claim depends on them.
-/

namespace DmvMonitor

/-- `AppointmentSlot` from appointmentChecker.ts. -/
structure AppointmentSlot where
  location : String
  date : String
  time : String
  url : String
deriving Repr, DecidableEq

/-- `DmvLocation` rows (shared schema), fields the core reads. -/
structure DmvLocation where
  id : String
  name : String
  url : String
  enabled : Bool
deriving Repr, DecidableEq

/-- `MonitoringSettings` singleton (shared schema). -/
structure MonitoringSettings where
  checkInterval : Nat
  daysAhead : Nat
  businessDaysOnly : Bool
  isEnabled : Bool
deriving Repr, DecidableEq

/-- `MonitoringStats` singleton (shared schema).  The schema has no `smsSent`
column; the SMS service nevertheless reads and writes an `smsSent` property
with `(stats.smsSent || 0)`, which we model as a plain counter. -/
structure MonitoringStats where
  totalChecks : Nat
  appointmentsFound : Nat
  emailsSent : Nat
  smsSent : Nat
  lastCheckTime : Option Nat
  uptime : Nat
deriving Repr, DecidableEq

/-- `ActivityLog` rows: kind tag, title, optional text fields. -/
structure ActivityLog where
  type : String
  title : String
  description : String
  action : Option String
deriving Repr, DecidableEq

/-- `EmailConfig` singleton.  The schema declares only the SMTP and
notification-email columns; the SMS/Twilio properties read by SmsService are
not part of the schema and are therefore possibly-undefined, modelled as
`Option`s. -/
structure EmailConfig where
  notificationEmail : String
  smtpServer : String
  smtpPort : Nat
  smtpUsername : Option String
  smtpPassword : Option String
  smsEnabled : Option Bool
  phoneNumber : Option String
  twilioAccountSid : Option String
  twilioAuthToken : Option String
  twilioPhoneNumber : Option String
deriving Repr, DecidableEq

/-- The `MemStorage` state visible to the core services. -/
structure Storage where
  locations : List DmvLocation
  emailConfig : Option EmailConfig
  settings : Option MonitoringSettings
  logs : List ActivityLog
  stats : Option MonitoringStats
deriving Repr, DecidableEq

/-- `storage.createActivityLog`: append-only insertion of one entry. -/
def appendLog (st : Storage) (e : ActivityLog) : Storage :=
  { st with logs := st.logs ++ [e] }

/-- JS `Date.getDay` on a day index: 0 = Sunday, 6 = Saturday. -/
def getDay (d : Nat) : Nat := d % 7

/-- Distance bound used as a termination measure: how many further days the
`getNextWorkingDays` loop can skip before reaching a non-weekend day. -/
def weekendGap (d : Nat) : Nat :=
  if d % 7 = 6 then 2 else if d % 7 = 0 then 1 else 0

/-- `AppointmentChecker.getNextWorkingDays(count, businessDaysOnly)`: starting
at `day` (the current day in the source), push the day when it is not a
skipped weekend day, then advance by one day, until `count` days are
collected. -/
def getNextWorkingDays (count : Nat) (businessDaysOnly : Bool) (day : Nat) : List Nat :=
  if count = 0 then []
  else if businessDaysOnly = false ∨ (getDay day ≠ 0 ∧ getDay day ≠ 6) then
    day :: getNextWorkingDays (count - 1) businessDaysOnly (day + 1)
  else
    getNextWorkingDays count businessDaysOnly (day + 1)
termination_by 3 * count + weekendGap day
decreasing_by
· rename_i hc _hcond
  have hg : weekendGap (day + 1) < 3 := by
    unfold weekendGap
    split <;> try split
    all_goals omega
  omega
· rename_i hc hcond
  have hw : day % 7 = 0 ∨ day % 7 = 6 := by
    rcases Decidable.em (getDay day = 0) with h0 | h0
    · exact Or.inl h0
    · rcases Decidable.em (getDay day = 6) with h6 | h6
      · exact Or.inr h6
      · exact absurd (Or.inr ⟨h0, h6⟩) hcond
  have hg : weekendGap (day + 1) < weekendGap day := by
    rcases hw with h | h
    · have h1 : (day + 1) % 7 = 1 := by omega
      simp [weekendGap, h, h1]
    · have h1 : (day + 1) % 7 = 0 := by omega
      simp [weekendGap, h, h1]
  omega

/-- JS `String.prototype.trim`: strip leading and trailing whitespace
(modelled over the character list so that it evaluates by reduction). -/
def jsTrim (s : String) : String :=
  String.mk (((s.data.dropWhile Char.isWhitespace).reverse.dropWhile
    Char.isWhitespace).reverse)

/-- Helper for `strIncludes`: does `pat` occur as a contiguous run of `s`? -/
def charsContain (pat : List Char) : List Char → Bool
  | [] => pat.isEmpty
  | c :: tail => pat.isPrefixOf (c :: tail) || charsContain pat tail

/-- JS `String.prototype.includes`: substring test. -/
def strIncludes (s pat : String) : Bool := charsContain pat.data s.data

/-- An element returned by the first `$$eval` (selector
`.available, .time-slot, [data-available="true"], .calendar-day.available`);
the page maps it to its trimmed text content (the `innerHTML` and `className`
fields of the source object are never read afterwards and are omitted). -/
structure TextElem where
  text : String
deriving Repr, DecidableEq

/-- An element returned by the second `$$eval` (selector
`.calendar-cell, .booking-slot, .appointment-time`): raw text content,
class list, `disabled` attribute flag, and the two data attributes
(`none` when the attribute is absent). -/
structure CalendarElem where
  text : String
  classes : List String
  disabledAttr : Bool
  dataDate : Option String
  dataTime : Option String
deriving Repr, DecidableEq

/-- The availability filter of the second `$$eval`:
`!classList.contains('disabled') && !classList.contains('unavailable') &&
!el.hasAttribute('disabled')`. -/
def calendarAvailable (el : CalendarElem) : Bool :=
  !(el.classes.contains "disabled") && !(el.classes.contains "unavailable") && !el.disabledAttr

/-- The plain objects produced inside the second `$$eval`:
`{ text: el.textContent?.trim() || '', date: el.getAttribute('data-date') || '',
time: el.getAttribute('data-time') || '' }`. -/
structure RawCalendarSlot where
  text : String
  date : String
  time : String
deriving Repr, DecidableEq

/-- The object-building step of the second `$$eval`:
`{ text: el.textContent?.trim() || '', date: el.getAttribute('data-date') ||
'', time: el.getAttribute('data-time') || '' }`. -/
def rawCalendarSlot (el : CalendarElem) : RawCalendarSlot :=
  { text := jsTrim el.text, date := el.dataDate.getD "", time := el.dataTime.getD "" }

/-- The body of `for (const slot of calendarSlots)`: a slot is pushed only
when `slot.date || slot.time` is truthy, defaulting a missing date to today
and a missing time to the element text. -/
def pushCalendarSlot (loc : DmvLocation) (todayStr : String)
    (slot : RawCalendarSlot) : Option AppointmentSlot :=
  if slot.date != "" || slot.time != "" then
    some { location := loc.name,
           date := if slot.date = "" then todayStr else slot.date,
           time := if slot.time = "" then slot.text else slot.time,
           url := loc.url }
  else none

/-- The structured-attribute strategy of `checkAppointments` (second `$$eval`
plus the `for (const slot of calendarSlots)` loop): keep available elements
with non-empty trimmed text, map them to raw `{text, date, time}` objects,
then push per `pushCalendarSlot`. -/
def extractCalendarSlots (loc : DmvLocation) (todayStr : String)
    (elems : List CalendarElem) : List AppointmentSlot :=
  let calendarSlots : List RawCalendarSlot :=
    (elems.filter fun el => calendarAvailable el && jsTrim el.text != "").map rawCalendarSlot
  calendarSlots.filterMap (pushCalendarSlot loc todayStr)

/-- Environment of `checkAppointments` that lives outside the program text:
the browser/DOM (`nav`), the JS locale formatter producing the five
`dateFormats` strings for a target day, the RegExp engine applied to the two
`timePatterns` (`timeTest`), `Date.toISOString().split('T')[0]` for a day
index (`isoDate`) and for the current day (`todayStr`), and the current day
index (`today`). -/
structure Page where
  availElems : List TextElem
  calElems : List CalendarElem
deriving Repr, DecidableEq

/-- Result of navigating to one location and reading its page: either the
page contents or the exception thrown by `page.goto`. -/
inductive NavResult where
  | ok (page : Page)
  | err (msg : String)
deriving Repr, DecidableEq

structure CheckerEnv where
  nav : DmvLocation → NavResult
  dateFormats : Nat → List String
  timeTest : String → Bool
  isoDate : Nat → String
  todayStr : String
  today : Nat

/-- The per-(element, target date) match of the text-pattern strategy:
`matchesDate && (hasTime || text.toLowerCase().includes('available'))`. -/
def textSlotMatches (env : CheckerEnv) (text : String) (targetDate : Nat) : Bool :=
  let matchesDate := (env.dateFormats targetDate).any fun fmt => strIncludes text fmt
  let hasTime := env.timeTest text
  matchesDate && (hasTime || strIncludes text.toLower "available")

/-- The text-pattern strategy of `checkAppointments` (first `$$eval` plus the
nested `for (const slot of slots) / for (const targetDate of targetDates)`
loops); note one slot is pushed per matching (element, target date) pair. -/
def extractTextSlots (env : CheckerEnv) (loc : DmvLocation) (targetDates : List Nat)
    (elems : List TextElem) : List AppointmentSlot :=
  elems.flatMap fun el =>
    targetDates.filterMap fun targetDate =>
      if textSlotMatches env el.text targetDate then
        some { location := loc.name, date := env.isoDate targetDate,
               time := el.text, url := loc.url }
      else none

/-- The `error` activity entry appended by the per-location `catch` block of
`checkAppointments`. -/
def checkerErrorLog (loc : DmvLocation) (msg : String) : ActivityLog :=
  { type := "error", title := "Error checking " ++ loc.name,
    description := "Failed to check appointments: " ++ msg, action := none }

/-- One iteration of the `for (const location of enabledLocations)` loop:
on success both strategies run and their slots are appended to the aggregate;
on a thrown navigation error the catch block appends one `error` activity
entry and the loop continues. -/
def checkLocation (env : CheckerEnv) (targetDates : List Nat)
    (acc : List AppointmentSlot × Storage) (loc : DmvLocation) :
    List AppointmentSlot × Storage :=
  match env.nav loc with
  | .err msg => (acc.1, appendLog acc.2 (checkerErrorLog loc msg))
  | .ok page =>
      (acc.1 ++ extractTextSlots env loc targetDates page.availElems
             ++ extractCalendarSlots loc env.todayStr page.calElems,
       acc.2)

/-- `AppointmentChecker.checkAppointments`: read locations, filter enabled,
read settings (throwing when absent), compute target dates, then walk the
enabled locations sequentially.  Returns the storage (which receives the
per-location `error` entries) and either the aggregated slot list or the
thrown error. -/
def checkAppointments (env : CheckerEnv) (st : Storage) :
    Storage × Except String (List AppointmentSlot) :=
  let enabledLocations := st.locations.filter (·.enabled)
  match st.settings with
  | none => (st, .error "Monitoring settings not found")
  | some settings =>
      let targetDates :=
        getNextWorkingDays settings.daysAhead settings.businessDaysOnly env.today
      let r := enabledLocations.foldl (checkLocation env targetDates) ([], st)
      (r.2, .ok r.1)

/-- The guard condition shared by `SmsService.sendAppointmentNotification`
and `SmsService.sendTestSms`: the config is absent, or any of `smsEnabled`,
`twilioAccountSid`, `twilioAuthToken`, `twilioPhoneNumber`, `phoneNumber`
is JS-falsy (undefined, false, or the empty string). -/
def smsConfigMissing (cfg : Option EmailConfig) : Bool :=
  match cfg with
  | none => true
  | some c =>
      !(c.smsEnabled.getD false) || c.twilioAccountSid.getD "" == ""
        || c.twilioAuthToken.getD "" == "" || c.twilioPhoneNumber.getD "" == ""
        || c.phoneNumber.getD "" == ""

namespace SmsService

/-- `SmsService.sendAppointmentNotification`: silently skips (resolving
normally, nothing sent) when the SMS config is missing or disabled; otherwise
performs the Twilio send (outcome supplied by the environment as
`twilioSend`), bumping the `smsSent` counter on success and rethrowing the
transport error on failure.  The returned `Bool` records whether a message
was actually handed to Twilio. -/
def sendAppointmentNotification (cfg : Option EmailConfig)
    (twilioSend : Except String Unit) (_slots : List AppointmentSlot)
    (st : Storage) : Storage × Except String Bool :=
  if smsConfigMissing cfg then (st, .ok false)
  else
    match twilioSend with
    | .ok _ =>
        let st1 := match st.stats with
          | some stats => { st with stats := some { stats with smsSent := stats.smsSent + 1 } }
          | none => st
        (st1, .ok true)
    | .error e => (st, .error e)

/-- `SmsService.sendTestSms`: throws `SMS configuration incomplete or
disabled` when the same guard fails; otherwise performs the Twilio send. -/
def sendTestSms (cfg : Option EmailConfig) (twilioSend : Except String Unit) :
    Except String Unit :=
  if smsConfigMissing cfg then .error "SMS configuration incomplete or disabled"
  else twilioSend

end SmsService

/-- The `notification_sent` activity entry appended by
`NotificationService.sendAppointmentNotification` when at least one channel
succeeded (`results` is the list of succeeded channel names). -/
def notificationSentLog (results : List String) (slots : List AppointmentSlot) :
    ActivityLog :=
  { type := "notification_sent", title := "Notifications Sent",
    description := "Sent " ++ String.intercalate " and " results
      ++ " notifications for " ++ toString slots.length ++ " appointment"
      ++ (if slots.length > 1 then "s" else ""),
    action := some ("Notified via: " ++ String.intercalate ", " results) }

namespace NotificationService

/-- `NotificationService.sendAppointmentNotification`: attempts the email
channel inside its own try/catch, then the SMS channel inside its own
try/catch (the outcomes of the two sends are supplied by the environment),
pushing `email` / `SMS` onto `results` on success; finally appends one
`notification_sent` entry exactly when `results` is non-empty.  The source
catches both channel errors, so the embedding is a total function; it
returns the updated storage and `results`. -/
def sendAppointmentNotification (emailOutcome smsOutcome : Except String Unit)
    (slots : List AppointmentSlot) (st : Storage) : Storage × List String :=
  let results : List String := []
  let results := match emailOutcome with
    | .ok _ => results ++ ["email"]
    | .error _ => results
  let results := match smsOutcome with
    | .ok _ => results ++ ["SMS"]
    | .error _ => results
  if results.length > 0 then
    (appendLog st (notificationSentLog results slots), results)
  else
    (st, results)

end NotificationService

/-- The in-memory fields of the `MonitoringService` class: the cron task
handle (`hasTask`: whether `this.task` is non-null), `isRunning`, and
`startTime`. -/
structure MonitoringState where
  hasTask : Bool
  isRunning : Bool
  startTime : Option Nat
deriving Repr, DecidableEq

/-- The `monitoring_started` activity entry. -/
def monitoringStartedLog (intervalMinutes : Nat) : ActivityLog :=
  { type := "monitoring_started", title := "Monitoring Started",
    description := "Started monitoring with " ++ toString intervalMinutes
      ++ " minute intervals",
    action := none }

/-- The `monitoring_stopped` activity entry. -/
def monitoringStoppedLog : ActivityLog :=
  { type := "monitoring_stopped", title := "Monitoring Stopped",
    description := "Appointment monitoring has been stopped", action := none }

/-- The `error` entry appended by the catch block of
`MonitoringService.performCheck`. -/
def checkFailedLog (msg : String) : ActivityLog :=
  { type := "error", title := "Check Failed",
    description := "Appointment check failed: " ++ msg, action := none }

/-- The `appointment_found` activity entry of `performCheck`. -/
def appointmentFoundLog (slots : List AppointmentSlot) : ActivityLog :=
  { type := "appointment_found", title := "Appointment Found!",
    description := "Found " ++ toString slots.length ++ " available slot"
      ++ (if slots.length > 1 then "s" else "") ++ ": "
      ++ String.intercalate ", " (slots.map fun s => s.location ++ " - " ++ s.time),
    action := some "Email notification sent" }

/-- The `check_completed` activity entry of `performCheck`. -/
def checkCompletedLog (enabledCount : Nat) : ActivityLog :=
  { type := "check_completed", title := "Routine Check Completed",
    description := "Checked " ++ toString enabledCount
      ++ " locations - No appointments available",
    action := none }

/-- The stats upsert performed by `performCheck` after a successful checker
call: `totalChecks + 1`, `appointmentsFound + slots.length`, `lastCheckTime`
set to now, and uptime recomputed from `startTime` when one is set.  When no
stats row exists the upsert is skipped (`if (stats)` in the source). -/
def bumpStats (ms : MonitoringState) (now : Nat)
    (slots : List AppointmentSlot) (stats : MonitoringStats) : MonitoringStats :=
  { stats with
      totalChecks := stats.totalChecks + 1,
      appointmentsFound := stats.appointmentsFound + slots.length,
      lastCheckTime := some now,
      uptime := match ms.startTime with
        | some t0 => (now - t0) / 60000
        | none => stats.uptime }

/-- The read-then-upsert of `performCheck` run atomically (as in a cycle with
no interleaving): skipped when no stats row exists. -/
def updateStatsAfterCheck (ms : MonitoringState) (now : Nat)
    (slots : List AppointmentSlot) (st : Storage) : Storage :=
  match st.stats with
  | some stats => { st with stats := some (bumpStats ms now slots stats) }
  | none => st

namespace MonitoringService

/-- `MonitoringService.startMonitoring`: returns immediately when already
running; throws `Monitoring is not enabled` when settings are absent or
disabled; otherwise installs the cron task, flips `isRunning`, records the
session start time and appends a `monitoring_started` entry (interval
converted with `Math.floor(checkInterval / 60)`). -/
def startMonitoring (ms : MonitoringState) (st : Storage) (now : Nat) :
    Except String (MonitoringState × Storage) :=
  if ms.isRunning then .ok (ms, st)
  else
    match st.settings with
    | none => .error "Monitoring is not enabled"
    | some settings =>
        if !settings.isEnabled then .error "Monitoring is not enabled"
        else
          let intervalMinutes := settings.checkInterval / 60
          .ok ({ hasTask := true, isRunning := true, startTime := some now },
               appendLog st (monitoringStartedLog intervalMinutes))

/-- `MonitoringService.stopMonitoring`: stops and clears the task when one
exists, clears `isRunning`, and unconditionally appends a
`monitoring_stopped` entry (`startTime` is left untouched by the source). -/
def stopMonitoring (ms : MonitoringState) (st : Storage) :
    MonitoringState × Storage :=
  ({ ms with hasTask := false, isRunning := false },
   appendLog st monitoringStoppedLog)

/-- Environment of one `performCheck` cycle: the behavior of
`appointmentChecker.checkAppointments` (which may mutate storage and either
return slots or throw) and of `emailService.sendAppointmentNotification`
(which may mutate storage and either resolve or throw), plus the current
time. -/
structure CycleEnv where
  checker : Storage → Storage × Except String (List AppointmentSlot)
  emailSend : List AppointmentSlot → Storage → Storage × Except String Unit
  now : Nat

/-- `MonitoringService.performCheck`: one check cycle.  On checker success
the stats are upserted, then — only when slots were found — the email service
(and no other channel) is invoked and an `appointment_found` entry is
appended; with zero slots a `check_completed` entry is appended instead.
Any throw inside the try block (checker or email send) lands in the catch
block, which appends an `error` entry; the stats upsert is inside the try,
after the checker call.  The second component lists the notification
channels invoked during the cycle. -/
def performCheck (env : CycleEnv) (ms : MonitoringState) (st : Storage) :
    Storage × List String :=
  match env.checker st with
  | (st1, .error e) => (appendLog st1 (checkFailedLog e), [])
  | (st1, .ok slots) =>
      let st2 := updateStatsAfterCheck ms env.now slots st1
      if slots.length > 0 then
        match env.emailSend slots st2 with
        | (st3, .ok _) => (appendLog st3 (appointmentFoundLog slots), ["email"])
        | (st3, .error e) => (appendLog st3 (checkFailedLog e), ["email"])
      else
        let enabledCount := (st2.locations.filter (·.enabled)).length
        (appendLog st2 (checkCompletedLog enabledCount), [])

end MonitoringService

/-!
Interleaving model for the scheduler/manual-trigger concurrency question.
`MonitoringService.performCheck` is an `async` method; both the cron callback
and the `POST /api/monitoring/check-now` route invoke it directly, and the
class holds no in-progress flag, lock, or queue.  On the JS event loop the
code between two `await`s runs atomically, and at every `await` any other
pending invocation may run.  We therefore model one `performCheck` invocation
(in the cycle where the checker finds no slots) as the sequence of atomic
segments delimited by its `await`s, and let a scheduled-tick invocation and a
manual invocation interleave arbitrarily — faithfully to the source, no step
is ever disabled by any guard.  Program counter of one invocation:
  0 — not started;
  1 — inside `appointmentChecker.checkAppointments()` (its first `await`s:
      browser/page work and storage reads, no storage writes on the
      no-location-error path);
  2 — the checker returned `[]`;
  3 — `storage.getMonitoringStats()` returned, its value held locally;
  4 — `storage.upsertMonitoringStats({...stats, totalChecks + 1, ...})`
      wrote the values computed from the locally held read;
  5 — `storage.getDmvLocations()` returned, held locally;
  6 — `createActivityLog(check_completed)` appended; invocation finished.
-/

/-- Local variables of one in-flight `performCheck` invocation. -/
structure TaskState where
  pc : Nat
  statsVar : Option MonitoringStats
  locsVar : List DmvLocation
deriving Repr, DecidableEq

/-- A pending invocation that has not run yet. -/
def initialTask : TaskState := { pc := 0, statsVar := none, locsVar := [] }

/-- Shared storage plus the two competing `performCheck` invocations. -/
structure SysState where
  store : Storage
  tick : TaskState
  manual : TaskState
deriving Repr, DecidableEq

/-- One atomic segment of one `performCheck` invocation (checker finds no
slots).  A finished invocation (pc ≥ 6) does nothing. -/
def stepTask (ms : MonitoringState) (now : Nat) (st : Storage) (t : TaskState) :
    Storage × TaskState :=
  match t.pc with
  | 0 => (st, { t with pc := 1 })
  | 1 => (st, { t with pc := 2 })
  | 2 => (st, { t with pc := 3, statsVar := st.stats })
  | 3 =>
      (match t.statsVar with
       | some stats => ({ st with stats := some (bumpStats ms now [] stats) }, { t with pc := 4 })
       | none => (st, { t with pc := 4 }))
  | 4 => (st, { t with pc := 5, locsVar := st.locations })
  | 5 => (appendLog st (checkCompletedLog ((t.locsVar.filter (·.enabled)).length)),
          { t with pc := 6 })
  | _ => (st, t)

/-- A Checker invocation is in flight: `checkAppointments` has been entered
and has not yet returned. -/
def inChecker (t : TaskState) : Bool := t.pc == 1

/-- Run one step of the chosen invocation (`false` = scheduled tick,
`true` = manual check-now). -/
def stepSys (ms : MonitoringState) (now : Nat) (s : SysState) (who : Bool) :
    SysState :=
  if who then
    let r := stepTask ms now s.store s.manual
    { s with store := r.1, manual := r.2 }
  else
    let r := stepTask ms now s.store s.tick
    { s with store := r.1, tick := r.2 }

/-- Execute an interleaving schedule.  Since the source has no cycle-in-flight
guard, every schedule is a possible event-loop execution. -/
def runSched (ms : MonitoringState) (now : Nat) (s : SysState) (sched : List Bool) :
    SysState :=
  sched.foldl (stepSys ms now) s

/-!  Reference definition used by the amended form of the calendar-slot
claim, and concrete sample data used by witnesses and counterexamples. -/

/-- Modelled from the amended claim (not from the source): what the
structured-attribute strategy actually produces per element — a slot only for
available, non-empty-text elements that additionally carry a non-empty
`data-date` or `data-time` attribute, with the per-field fallbacks. -/
def calendarSlotSpec (loc : DmvLocation) (todayStr : String) (el : CalendarElem) :
    Option AppointmentSlot :=
  if calendarAvailable el = true ∧ jsTrim el.text ≠ ""
      ∧ (el.dataDate.getD "" ≠ "" ∨ el.dataTime.getD "" ≠ "") then
    some { location := loc.name,
           date := if el.dataDate.getD "" = "" then todayStr else el.dataDate.getD "",
           time := if el.dataTime.getD "" = "" then jsTrim el.text else el.dataTime.getD "",
           url := loc.url }
  else none

def sampleStats : MonitoringStats :=
  { totalChecks := 5, appointmentsFound := 2, emailsSent := 1, smsSent := 0,
    lastCheckTime := none, uptime := 0 }

def sampleSettings : MonitoringSettings :=
  { checkInterval := 300, daysAhead := 1, businessDaysOnly := true, isEnabled := true }

def locA : DmvLocation :=
  { id := "a", name := "Henderson DMV (All Services)", url := "https://a.example", enabled := true }

def locB : DmvLocation :=
  { id := "b", name := "West Flamingo DMV (DL)", url := "https://b.example", enabled := true }

def sampleStorage : Storage :=
  { locations := [locA, locB], emailConfig := none, settings := some sampleSettings,
    logs := [], stats := some sampleStats }

def stoppedMs : MonitoringState :=
  { hasTask := false, isRunning := false, startTime := none }

def runningMs : MonitoringState :=
  { hasTask := true, isRunning := true, startTime := some 0 }

def slotB : AppointmentSlot :=
  { location := locB.name, date := "2026-10-13", time := "9:00 AM", url := locB.url }

def elemB : CalendarElem :=
  { text := "9:00 AM", classes := ["booking-slot"], disabledAttr := false,
    dataDate := some "2026-10-13", dataTime := some "9:00 AM" }

def pageB : Page := { availElems := [], calElems := [elemB] }

def c7Env : CheckerEnv :=
  { nav := fun loc => if loc.id = "a" then .err "Navigation timeout of 30000 ms exceeded"
                      else .ok pageB,
    dateFormats := fun _ => [], timeTest := fun _ => false,
    isoDate := fun _ => "", todayStr := "2026-10-11", today := 100 }

/-- An available calendar element with non-empty text and no data attributes. -/
def plainTextElem : CalendarElem :=
  { text := "9:00 AM available", classes := ["calendar-cell"], disabledAttr := false,
    dataDate := none, dataTime := none }

def c2Env : MonitoringService.CycleEnv :=
  { checker := fun st => (st, .error "Failed to launch browser"),
    emailSend := fun _ st => (st, .ok ()), now := 111 }

def c3Env : MonitoringService.CycleEnv :=
  { checker := fun st => (st, .ok [slotB]),
    emailSend := fun _ st => (st, .ok ()), now := 222 }

def c4Storage : Storage := { sampleStorage with logs := [monitoringStoppedLog] }

def c1Init : SysState :=
  { store := sampleStorage, tick := initialTask, manual := initialTask }

/-- Strictly alternating tick/manual schedule long enough to finish both
invocations. -/
def c1AltSched : List Bool :=
  [false, true, false, true, false, true, false, true, false, true, false, true]

/-!  Theorems. -/

theorem getNextWorkingDays_length (count : Nat) (b : Bool) (day : Nat) :
    (getNextWorkingDays count b day).length = count := by
  induction count, b, day using getNextWorkingDays.induct with
  | case1 => simp [getNextWorkingDays]
  | case2 count b day hc hcond ih =>
      rw [getNextWorkingDays, if_neg hc, if_pos hcond]
      simp only [List.length_cons, ih]
      omega
  | case3 count b day hc hcond ih =>
      rw [getNextWorkingDays, if_neg hc, if_neg hcond]
      exact ih

theorem getNextWorkingDays_le (count : Nat) (b : Bool) (day : Nat) :
    ∀ x ∈ getNextWorkingDays count b day, day ≤ x := by
  induction count, b, day using getNextWorkingDays.induct with
  | case1 b day => simp [getNextWorkingDays]
  | case2 count b day hc hcond ih =>
      rw [getNextWorkingDays, if_neg hc, if_pos hcond]
      intro x hx
      rcases List.mem_cons.1 hx with h | h
      · omega
      · have := ih x h; omega
  | case3 count b day hc hcond ih =>
      rw [getNextWorkingDays, if_neg hc, if_neg hcond]
      intro x hx
      have := ih x hx; omega

theorem getNextWorkingDays_pairwise (count : Nat) (b : Bool) (day : Nat) :
    (getNextWorkingDays count b day).Pairwise (· < ·) := by
  induction count, b, day using getNextWorkingDays.induct with
  | case1 b day => simp [getNextWorkingDays]
  | case2 count b day hc hcond ih =>
      rw [getNextWorkingDays, if_neg hc, if_pos hcond]
      refine List.pairwise_cons.2 ⟨fun x hx => ?_, ih⟩
      have := getNextWorkingDays_le (count - 1) b (day + 1) x hx
      omega
  | case3 count b day hc hcond ih =>
      rw [getNextWorkingDays, if_neg hc, if_neg hcond]
      exact ih

theorem getNextWorkingDays_no_weekend (count : Nat) (b : Bool) (day : Nat) :
    ∀ x ∈ getNextWorkingDays count b day, b = true → getDay x ≠ 0 ∧ getDay x ≠ 6 := by
  induction count, b, day using getNextWorkingDays.induct with
  | case1 b day => simp [getNextWorkingDays]
  | case2 count b day hc hcond ih =>
      rw [getNextWorkingDays, if_neg hc, if_pos hcond]
      intro x hx hb
      rcases List.mem_cons.1 hx with h | h
      · subst h hb
        rcases hcond with hcond | hcond
        · exact absurd hcond (by simp)
        · exact hcond
      · exact ih x h hb
  | case3 count b day hc hcond ih =>
      rw [getNextWorkingDays, if_neg hc, if_neg hcond]
      exact ih

/-- C6 (confirmed): for every count in 1..30 and both values of
businessDaysOnly, with a fixed current day, `getNextWorkingDays` returns
exactly `count` dates, strictly increasing, each at or after today, and when
businessDaysOnly is true none falls on Saturday (weekday 6) or Sunday
(weekday 0). -/
theorem getNextWorkingDays_target_dates (count : Nat) (b : Bool) (today : Nat)
    (_h1 : 1 ≤ count) (_h2 : count ≤ 30) :
    (getNextWorkingDays count b today).length = count ∧
    (getNextWorkingDays count b today).Pairwise (· < ·) ∧
    (∀ d ∈ getNextWorkingDays count b today, today ≤ d) ∧
    (b = true → ∀ d ∈ getNextWorkingDays count b today, getDay d ≠ 0 ∧ getDay d ≠ 6) :=
  ⟨getNextWorkingDays_length count b today,
   getNextWorkingDays_pairwise count b today,
   getNextWorkingDays_le count b today,
   fun hb d hd => getNextWorkingDays_no_weekend count b today d hd hb⟩

/-- C6 witness: count 3, business days only, starting on a Friday (day 5):
skips the weekend and returns [5, 8, 9]. -/
theorem getNextWorkingDays_target_dates_witness :
    (getNextWorkingDays 3 true 5).length = 3 ∧
    (getNextWorkingDays 3 true 5).Pairwise (· < ·) ∧
    (∀ d ∈ getNextWorkingDays 3 true 5, 5 ≤ d) ∧
    (true = true → ∀ d ∈ getNextWorkingDays 3 true 5, getDay d ≠ 0 ∧ getDay d ≠ 6) :=
  getNextWorkingDays_target_dates 3 true 5 (by decide) (by decide)

theorem calendarSlotSpec_pointwise (loc : DmvLocation) (todayStr : String)
    (el : CalendarElem) :
    calendarSlotSpec loc todayStr el =
      if (calendarAvailable el && jsTrim el.text != "") = true
      then pushCalendarSlot loc todayStr (rawCalendarSlot el) else none := by
  unfold calendarSlotSpec pushCalendarSlot rawCalendarSlot
  by_cases ha : calendarAvailable el = true <;>
  by_cases ht : jsTrim el.text = "" <;>
  by_cases hd : el.dataDate.getD "" = "" <;>
  by_cases hm : el.dataTime.getD "" = "" <;>
  simp [ha, ht, hd, hm]

/-- C5 (corrected): the structured-attribute strategy produces a slot only
for those available non-empty-text elements that also carry a non-empty
`data-date` or `data-time` attribute (an element with neither attribute is
dropped by the `slot.date || slot.time` guard); when only one attribute is
present the missing date falls back to today and the missing time to the
element text. -/
theorem extractCalendarSlots_attr_guard (loc : DmvLocation) (todayStr : String)
    (elems : List CalendarElem) :
    extractCalendarSlots loc todayStr elems
      = elems.filterMap (calendarSlotSpec loc todayStr) := by
  induction elems with
  | nil => rfl
  | cons el tl ih =>
      simp only [extractCalendarSlots, List.filter_cons] at ih ⊢
      by_cases h1 : (calendarAvailable el && jsTrim el.text != "") = true
      · rw [if_pos h1]
        simp only [List.map_cons, List.filterMap_cons]
        rw [ih, calendarSlotSpec_pointwise loc todayStr el, if_pos h1]
      · rw [if_neg h1]
        simp only [List.filterMap_cons]
        rw [ih, calendarSlotSpec_pointwise loc todayStr el, if_neg h1]

/-- C5 counterexample: an available calendar-cell element with non-empty text
and no data attributes produces NO slot — the claimed fallback (element text
as time, today as date) never fires, because the `slot.date || slot.time`
guard rejects the element first. -/
theorem extractCalendarSlots_text_fallback_cex :
    calendarAvailable plainTextElem = true ∧
    jsTrim plainTextElem.text ≠ "" ∧
    plainTextElem.dataDate = none ∧
    plainTextElem.dataTime = none ∧
    extractCalendarSlots locA "2026-10-11" [plainTextElem] = [] := by
  refine ⟨rfl, by decide, rfl, rfl, rfl⟩

/-- C7 (confirmed): with two enabled locations where navigation for A throws
and B succeeds, `checkAppointments` still returns B's extracted slots, the
loop continues past A, and exactly one error-kind activity entry naming A is
appended. -/
theorem checkAppointments_isolation
    (env : CheckerEnv) (st : Storage) (settings : MonitoringSettings)
    (A B : DmvLocation) (m : String) (pB : Page) (slotsB : List AppointmentSlot)
    (hs : st.settings = some settings)
    (hloc : st.locations.filter (·.enabled) = [A, B])
    (hA : env.nav A = .err m)
    (hB : env.nav B = .ok pB)
    (hslots : extractTextSlots env B
        (getNextWorkingDays settings.daysAhead settings.businessDaysOnly env.today)
        pB.availElems
      ++ extractCalendarSlots B env.todayStr pB.calElems = slotsB)
    (_hne : slotsB ≠ []) :
    checkAppointments env st = (appendLog st (checkerErrorLog A m), .ok slotsB) := by
  simp only [checkAppointments, hs, hloc, List.foldl, checkLocation, hA, hB]
  rw [← hslots]
  simp

/-- C7 witness: locA times out, locB's page holds one bookable calendar
element; the checker returns locB's slot and logs one error for locA. -/
theorem checkAppointments_isolation_witness :
    checkAppointments c7Env sampleStorage
      = (appendLog sampleStorage
           (checkerErrorLog locA "Navigation timeout of 30000 ms exceeded"),
         .ok [slotB]) :=
  checkAppointments_isolation c7Env sampleStorage sampleSettings locA locB
    "Navigation timeout of 30000 ms exceeded" pageB [slotB]
    rfl (by decide) rfl rfl (by decide) (by decide)

/-- C8 (confirmed): each channel's success is recorded independently of the
other channel's outcome, exactly one notification_sent entry naming the
succeeding channels is appended when at least one channel succeeded, and with
both channels failing the dispatcher completes normally with storage
untouched and no entry. -/
theorem notification_channel_independence
    (eo so : Except String Unit) (slots : List AppointmentSlot) (st : Storage)
    (_hne : slots ≠ []) :
    (("email" ∈ (NotificationService.sendAppointmentNotification eo so slots st).2)
        ↔ eo = .ok ()) ∧
    (("SMS" ∈ (NotificationService.sendAppointmentNotification eo so slots st).2)
        ↔ so = .ok ()) ∧
    ((eo = .ok () ∨ so = .ok ()) →
      (NotificationService.sendAppointmentNotification eo so slots st).1.logs
        = st.logs ++ [notificationSentLog
            (NotificationService.sendAppointmentNotification eo so slots st).2 slots]) ∧
    (∀ e1 e2, eo = .error e1 → so = .error e2 →
      NotificationService.sendAppointmentNotification eo so slots st = (st, [])) := by
  cases eo <;> cases so <;>
    simp [NotificationService.sendAppointmentNotification, appendLog]

/-- C8 witness: email send throws, SMS succeeds: SMS is still attempted and
recorded, and one notification_sent entry naming only SMS is appended. -/
theorem notification_channel_independence_witness :
    (("email" ∈ (NotificationService.sendAppointmentNotification
        (.error "SMTP connection refused") (.ok ()) [slotB] sampleStorage).2)
        ↔ (.error "SMTP connection refused" : Except String Unit) = .ok ()) ∧
    (("SMS" ∈ (NotificationService.sendAppointmentNotification
        (.error "SMTP connection refused") (.ok ()) [slotB] sampleStorage).2)
        ↔ (.ok () : Except String Unit) = .ok ()) ∧
    (((.error "SMTP connection refused" : Except String Unit) = .ok ()
        ∨ (.ok () : Except String Unit) = .ok ()) →
      (NotificationService.sendAppointmentNotification
        (.error "SMTP connection refused") (.ok ()) [slotB] sampleStorage).1.logs
        = sampleStorage.logs ++ [notificationSentLog
            (NotificationService.sendAppointmentNotification
              (.error "SMTP connection refused") (.ok ()) [slotB] sampleStorage).2 [slotB]]) ∧
    (∀ e1 e2, (.error "SMTP connection refused" : Except String Unit) = .error e1 →
      (.ok () : Except String Unit) = .error e2 →
      NotificationService.sendAppointmentNotification
        (.error "SMTP connection refused") (.ok ()) [slotB] sampleStorage
        = (sampleStorage, [])) :=
  notification_channel_independence (.error "SMTP connection refused") (.ok ())
    [slotB] sampleStorage (by decide)

/-- C9 (confirmed): startMonitoring on an already-running scheduler returns
immediately with no error, no state change (task, isRunning and startTime all
kept), and no activity entry appended. -/
theorem startMonitoring_running_noop (ms : MonitoringState) (st : Storage)
    (now : Nat) (h : ms.isRunning = true) :
    MonitoringService.startMonitoring ms st now = .ok (ms, st) := by
  simp [MonitoringService.startMonitoring, h]

/-- C9 witness: a running scheduler state is returned untouched. -/
theorem startMonitoring_running_noop_witness :
    MonitoringService.startMonitoring runningMs sampleStorage 7
      = .ok (runningMs, sampleStorage) :=
  startMonitoring_running_noop runningMs sampleStorage 7 rfl

/-- C10 (confirmed): with the SMS configuration absent, disabled or missing a
credential, the appointment notification silently skips (resolves normally,
nothing sent, storage untouched) while sendTestSms throws the
SMS-configuration error — the two operations disagree on reporting. -/
theorem sms_unconfigured_disagreement (cfg : Option EmailConfig)
    (tw : Except String Unit) (slots : List AppointmentSlot) (st : Storage)
    (h : smsConfigMissing cfg = true) :
    SmsService.sendAppointmentNotification cfg tw slots st = (st, .ok false) ∧
    SmsService.sendTestSms cfg tw
      = .error "SMS configuration incomplete or disabled" := by
  constructor
  · simp [SmsService.sendAppointmentNotification, h]
  · simp [SmsService.sendTestSms, h]

/-- C10 witness: no email config at all: the notification path skips while
the test path throws. -/
theorem sms_unconfigured_disagreement_witness :
    SmsService.sendAppointmentNotification none (.ok ()) [slotB] sampleStorage
      = (sampleStorage, .ok false) ∧
    SmsService.sendTestSms none (.ok ())
      = .error "SMS configuration incomplete or disabled" :=
  sms_unconfigured_disagreement none (.ok ()) [slotB] sampleStorage rfl

/-- C2 (corrected): when the Checker call throws, performCheck appends exactly
one error activity entry, but the stats upsert sits after the checker call
inside the same try block and is therefore skipped — totalChecks is NOT
incremented for the attempt. -/
theorem performCheck_error_no_stats_update (env : MonitoringService.CycleEnv)
    (ms : MonitoringState) (st st1 : Storage) (e : String)
    (h : env.checker st = (st1, .error e)) :
    MonitoringService.performCheck env ms st
      = (appendLog st1 (checkFailedLog e), []) ∧
    (MonitoringService.performCheck env ms st).1.stats = st1.stats := by
  constructor
  · simp [MonitoringService.performCheck, h]
  · simp [MonitoringService.performCheck, h, appendLog]

/-- C2 witness: a browser-launch failure yields one error entry and leaves
stats untouched. -/
theorem performCheck_error_no_stats_update_witness :
    MonitoringService.performCheck c2Env runningMs sampleStorage
      = (appendLog sampleStorage (checkFailedLog "Failed to launch browser"), []) ∧
    (MonitoringService.performCheck c2Env runningMs sampleStorage).1.stats
      = sampleStorage.stats :=
  performCheck_error_no_stats_update c2Env runningMs sampleStorage sampleStorage
    "Failed to launch browser" rfl

/-- C2 counterexample: stats start at totalChecks = 5; the checker throws;
after the cycle one error entry was appended but the stats row is unchanged —
totalChecks is still 5, not 6 as the claim requires. -/
theorem performCheck_error_stats_cex :
    sampleStorage.stats = some sampleStats ∧
    sampleStats.totalChecks = 5 ∧
    MonitoringService.performCheck c2Env stoppedMs sampleStorage
      = (appendLog sampleStorage (checkFailedLog "Failed to launch browser"), []) ∧
    (MonitoringService.performCheck c2Env stoppedMs sampleStorage).1.stats
      = some sampleStats :=
  ⟨rfl, rfl, rfl, rfl⟩

/-- C3 (corrected): a cycle that finds slots invokes only the email channel
(`emailService.sendAppointmentNotification`); when that send succeeds exactly
one appointment_found entry summarizing the slots is appended with action
`Email notification sent`.  The SMS channel (and the two-channel
NotificationService dispatcher) is not invoked by performCheck. -/
theorem performCheck_email_only (env : MonitoringService.CycleEnv)
    (ms : MonitoringState) (st st1 st3 : Storage) (slots : List AppointmentSlot)
    (hc : env.checker st = (st1, .ok slots)) (hne : slots ≠ [])
    (he : env.emailSend slots (updateStatsAfterCheck ms env.now slots st1)
      = (st3, .ok ())) :
    MonitoringService.performCheck env ms st
      = (appendLog st3 (appointmentFoundLog slots), ["email"]) := by
  have hlen : 0 < slots.length := List.length_pos.mpr hne
  simp [MonitoringService.performCheck, hc, he, hlen]

/-- C3 witness: one found slot, email succeeds: one appointment_found entry,
channel list is exactly [email]. -/
theorem performCheck_email_only_witness :
    MonitoringService.performCheck c3Env stoppedMs sampleStorage
      = (appendLog (updateStatsAfterCheck stoppedMs c3Env.now [slotB] sampleStorage)
           (appointmentFoundLog [slotB]), ["email"]) :=
  performCheck_email_only c3Env stoppedMs sampleStorage sampleStorage
    (updateStatsAfterCheck stoppedMs c3Env.now [slotB] sampleStorage) [slotB]
    rfl (by decide) rfl

/-- C3 counterexample: the checker returns a non-empty slot list, yet the set
of channels attempted by the cycle is exactly [email] — SMS is never
attempted, contradicting the claim that both channels are attempted. -/
theorem performCheck_sms_not_attempted_cex :
    c3Env.checker sampleStorage = (sampleStorage, .ok [slotB]) ∧
    (MonitoringService.performCheck c3Env runningMs sampleStorage).2 = ["email"] ∧
    "SMS" ∉ (MonitoringService.performCheck c3Env runningMs sampleStorage).2 := by
  refine ⟨rfl, rfl, by decide⟩

/-- C4 (corrected): stopping an already-stopped scheduler does not error and
leaves the scheduler state unchanged, but it DOES append another
monitoring_stopped activity entry — the source logs unconditionally. -/
theorem stopMonitoring_stopped (ms : MonitoringState) (st : Storage)
    (h1 : ms.isRunning = false) (h2 : ms.hasTask = false) :
    MonitoringService.stopMonitoring ms st
      = (ms, appendLog st monitoringStoppedLog) := by
  cases ms
  simp_all [MonitoringService.stopMonitoring]

/-- C4 witness: stopping the stopped scheduler returns the same state and
appends the entry. -/
theorem stopMonitoring_stopped_witness :
    MonitoringService.stopMonitoring stoppedMs sampleStorage
      = (stoppedMs, appendLog sampleStorage monitoringStoppedLog) :=
  stopMonitoring_stopped stoppedMs sampleStorage rfl rfl

/-- C4 counterexample: the scheduler is already stopped and the log already
ends in a monitoring_stopped entry; stopMonitoring appends a duplicate
monitoring_stopped entry, contradicting the claimed no-op. -/
theorem stopMonitoring_duplicate_log_cex :
    MonitoringService.stopMonitoring stoppedMs c4Storage
      = (stoppedMs,
         { c4Storage with logs := [monitoringStoppedLog, monitoringStoppedLog] }) :=
  rfl

/-- C1 (corrected): MonitoringService holds no cycle-in-progress guard, so a
manual check-now interleaved with a scheduled tick can put two Checker
invocations in flight simultaneously (schedule [tick, manual]); a cycle
executed without interleaving does increment totalChecks by exactly 1. -/
theorem scheduler_cycles_not_serialized (st : Storage) (ms : MonitoringState)
    (now : Nat) (stats : MonitoringStats) (h : st.stats = some stats) :
    (inChecker (runSched ms now ⟨st, initialTask, initialTask⟩ [false, true]).tick = true ∧
     inChecker (runSched ms now ⟨st, initialTask, initialTask⟩ [false, true]).manual = true) ∧
    (runSched ms now ⟨st, initialTask, initialTask⟩
        [false, false, false, false, false, false]).store.stats
      = some (bumpStats ms now [] stats) ∧
    (bumpStats ms now [] stats).totalChecks = stats.totalChecks + 1 := by
  refine ⟨⟨rfl, rfl⟩, ?_, rfl⟩
  simp [runSched, stepSys, stepTask, h, appendLog, initialTask]

/-- C1 witness: concrete running scheduler and storage. -/
theorem scheduler_cycles_not_serialized_witness :
    (inChecker (runSched runningMs 60000
        ⟨sampleStorage, initialTask, initialTask⟩ [false, true]).tick = true ∧
     inChecker (runSched runningMs 60000
        ⟨sampleStorage, initialTask, initialTask⟩ [false, true]).manual = true) ∧
    (runSched runningMs 60000 ⟨sampleStorage, initialTask, initialTask⟩
        [false, false, false, false, false, false]).store.stats
      = some (bumpStats runningMs 60000 [] sampleStats) ∧
    (bumpStats runningMs 60000 [] sampleStats).totalChecks
      = sampleStats.totalChecks + 1 :=
  scheduler_cycles_not_serialized sampleStorage runningMs 60000 sampleStats rfl

/-- C1 counterexample: after the schedule [tick, manual] both invocations are
inside the Checker simultaneously — two concurrently in-flight Checker calls;
and under a fully alternating schedule both logical cycles run to completion
yet totalChecks advances from 5 only to 6 (both cycles read 5 before either
wrote), not by 1 per logical cycle. -/
theorem scheduler_overlap_cex :
    (inChecker (runSched runningMs 60000 c1Init [false, true]).tick = true ∧
     inChecker (runSched runningMs 60000 c1Init [false, true]).manual = true) ∧
    (runSched runningMs 60000 c1Init c1AltSched).tick.pc = 6 ∧
    (runSched runningMs 60000 c1Init c1AltSched).manual.pc = 6 ∧
    sampleStorage.stats = some sampleStats ∧
    sampleStats.totalChecks = 5 ∧
    (runSched runningMs 60000 c1Init c1AltSched).store.stats.map
      MonitoringStats.totalChecks = some 6 := by
  refine ⟨⟨rfl, rfl⟩, rfl, rfl, rfl, rfl, rfl⟩

end DmvMonitor
